import Mathlib

/-!
Verification of the theme-provider repository (a React light/dark theme
context with localStorage persistence and cross-tab synchronization).

The embedding below translates the pieces of `src/unnamed/part_000`
(the `ThemeProvider` component) and `src/ThemeContext.tsx` that the
claims are about:

* `THEME_KEY` — the fixed storage key literal.
* `initTheme` — the lazy `useState` initializer (the Preference
  Resolver): reads the persisted value and falls back to the
  `prefers-color-scheme: dark` media query, then to `"light"`.
* `toggleTheme` — the `useCallback` body flipping the theme.
* `handleStorageChange` — the cross-tab `storage` event handler.
* `applyThemeEffect` — the `useLayoutEffect` body updating the root
  element class list and the persistent store.
* `contextValue` / `renderProvider` — the memoized context value and a
  model of the `useMemo` / `useCallback` reference-identity semantics.

Persisted values and themes are modeled as `String` (localStorage stores
strings; `getItem` returns `Option String` for `string | null`), so the
unvalidated `as Theme` cast in the source is visible in the model.
-/

/-- The fixed persistent-store key, `export const THEME_KEY = 'theme'`. -/
def THEME_KEY : String := "theme"

/-- Shallow embedding of the lazy `useState` initializer of
`ThemeProvider` (the Preference Resolver).  The source reads
`localStorage.getItem(THEME_KEY)` (a `string | null`, modeled as
`Option String`) and returns it whenever it is truthy — in JavaScript a
string is truthy exactly when it is non-null and non-empty; there is no
validation against the `Theme` enumeration (the `as Theme` cast is
unchecked).  Otherwise it maps the `prefers-color-scheme: dark` media
query result to `"dark"` / `"light"`. -/
def initTheme (savedTheme : Option String) (prefersDark : Bool) : String :=
  match savedTheme with
  | some s => if s = "" then (if prefersDark then "dark" else "light") else s
  | none => if prefersDark then "dark" else "light"

/-- Shallow embedding of the `toggleTheme` callback body:
`setTheme(prev => (prev === 'light' ? 'dark' : 'light'))`. -/
def toggleTheme (prev : String) : String :=
  if prev = "light" then "dark" else "light"

/-- Shallow embedding of `handleStorageChange`: the `storage` event
carries `e.key : string | null` and `e.newValue : string | null`; the
handler calls `setTheme(e.newValue)` exactly when the key equals
`THEME_KEY` and the new value is the string `"light"` or `"dark"`, and
does nothing otherwise (a strict `===` comparison with `null` on either
side is false, so the `none` cases fall into the no-op branch). -/
def handleStorageChange (key newValue : Option String) (theme : String) : String :=
  match key, newValue with
  | some k, some v =>
      if k = THEME_KEY ∧ (v = "light" ∨ v = "dark") then v else theme
  | _, _ => theme

/-- DOM `classList.remove(...tokens)`: every listed token is removed
from the class list. -/
def classListRemove (cs : List String) (tokens : List String) : List String :=
  cs.filter (fun c => !decide (c ∈ tokens))

/-- DOM `classList.add(token)`: appends the token unless already present
(the DOM class list holds no duplicates of an added token). -/
def classListAdd (cs : List String) (c : String) : List String :=
  if c ∈ cs then cs else cs ++ [c]

/-- `localStorage.setItem(key, value)` over a store modeled as a map
from keys to optional string values. -/
def setItem (store : String → Option String) (key value : String) :
    String → Option String :=
  fun k => if k = key then some value else store k

/-- Shallow embedding of the `useLayoutEffect` body (the Theme Store
Synchronizer): first `root.classList.remove('light', 'dark')`, then
`root.classList.add(theme)`, then
`localStorage.setItem(THEME_KEY, theme)`.  Returns the updated root
class list and the updated store. -/
def applyThemeEffect (theme : String) (root : List String)
    (store : String → Option String) :
    List String × (String → Option String) :=
  (classListAdd (classListRemove root ["light", "dark"]) theme,
   setItem store THEME_KEY theme)

/-- A memoized hook cell: the dependency tuple seen at the previous
render together with the identity (modeled as an allocation tag) of the
value produced then.  This models React's `useMemo` / `useCallback`
reference-identity semantics, which the source relies on via explicit
dependency lists. -/
structure MemoCell (δ : Type) where
  deps : δ
  ref : Nat

/-- One render of a memoized hook: if the cell exists and its
dependencies equal the current ones, the previously allocated value is
returned unchanged (reference-stable); otherwise the factory runs and a
fresh allocation tag is produced. -/
def useMemoRef {δ : Type} [DecidableEq δ] (deps : δ)
    (cell : Option (MemoCell δ)) (fresh : Nat) : Nat × MemoCell δ :=
  match cell with
  | some c => if c.deps = deps then (c.ref, c) else (fresh, ⟨deps, fresh⟩)
  | none => (fresh, ⟨deps, fresh⟩)

/-- The provider's hook cells across renders: the `useCallback` cell for
`toggleTheme` (dependency list `[]`, modeled as `Unit`) and the
`useMemo` cell for `contextValue` (dependency list
`[theme, toggleTheme]`). -/
structure RenderCache where
  toggleCell : Option (MemoCell Unit)
  ctxCell : Option (MemoCell (String × Nat))

/-- One render of `ThemeProvider`'s memoized part, as written in the
source: `toggleTheme` comes from `useCallback(..., [])` and
`contextValue` from `useMemo(..., [theme, toggleTheme])`.  Returns the
identities of the toggle function and of the context value, plus the
updated cells.  `freshToggle` / `freshCtx` are the allocation tags used
if the respective factory has to run. -/
def renderProvider (theme : String) (cache : RenderCache)
    (freshToggle freshCtx : Nat) : (Nat × Nat) × RenderCache :=
  let t := useMemoRef () cache.toggleCell freshToggle
  let c := useMemoRef (theme, t.1) cache.ctxCell freshCtx
  ((t.1, c.1), ⟨some t.2, some c.2⟩)

/-- The exposed context value surface (`ThemeContextType` in
`src/ThemeContext.tsx`): exactly the fields `theme`, `isDark` and
`toggleTheme`. -/
structure ThemeContextType where
  theme : String
  isDark : Bool
  toggleTheme : String → String

/-- The `useMemo` factory of `contextValue` in the source:
`{ theme, isDark: theme === 'dark', toggleTheme }`. -/
def contextValue (theme : String) : ThemeContextType :=
  ⟨theme, decide (theme = "dark"), toggleTheme⟩

/-- C1 counterexample: the resolver does not fall back to the
prefers-dark signal on a present-but-invalid persisted value.  With
persisted value `"solarized"` and prefers-dark true, the claim requires
initial Theme `dark`; the code returns `"solarized"`. -/
theorem claim1_cex :
    initTheme (some ("solarized")) true = "solarized" ∧
    ("solarized" : String) ≠ "dark" :=
  ⟨rfl, by decide⟩

/-- C1 (amended): the Preference Resolver produces the initial Theme by
strict priority: the persisted value under the fixed key if present and
non-empty (no validity check is made), otherwise the prefers-dark signal
mapped to dark/light, otherwise the literal default light; in
particular, for every prior persisted value in `{light, dark}`, the
resolved initial Theme equals that value. -/
theorem init_priority (savedTheme : Option String) (prefersDark : Bool) :
    (∀ s, savedTheme = some s → s ≠ "" → initTheme savedTheme prefersDark = s) ∧
    ((savedTheme = none ∨ savedTheme = some ("")) →
      initTheme savedTheme prefersDark = if prefersDark then "dark" else "light") ∧
    initTheme (some ("light")) prefersDark = "light" ∧
    initTheme (some ("dark")) prefersDark = "dark" := by
  refine ⟨?_, ?_, by simp [initTheme], by simp [initTheme]⟩
  · rintro s rfl hs
    simp [initTheme, hs]
  · rintro (rfl | rfl) <;> simp [initTheme]

/-- Witness for `init_priority` at concrete inputs: persisted `"dark"`
wins over a false prefers-dark signal, and an absent persisted value
falls back to the signal. -/
theorem init_priority_witness :
    initTheme (some ("dark")) false = "dark" ∧ initTheme none true = "dark" := by
  refine ⟨(init_priority (some ("dark")) false).1 "dark" rfl (by decide), ?_⟩
  have h := (init_priority none true).2.1 (Or.inl rfl)
  simpa using h

/-- C2 counterexample: a malformed persisted value can become the
initial Theme.  With persisted value `"banana"` and prefers-dark false,
the claim requires the resolver to fall through to the signal (giving
`light`); the code returns `"banana"`, which is neither valid theme. -/
theorem claim2_cex :
    initTheme (some ("banana")) false = "banana" ∧
    ("banana" : String) ≠ "light" ∧ ("banana" : String) ≠ "dark" :=
  ⟨rfl, by decide, by decide⟩

/-- C2 (amended): for a persisted value that is absent or the empty
string, the resolver raises no error and falls through to the
prefers-dark tier; a non-empty malformed persisted value does not fall
through — it is returned as the initial Theme (still with no error). -/
theorem init_fallthrough (prefersDark : Bool) (savedTheme : Option String)
    (h : savedTheme = none ∨ savedTheme = some ("")) :
    initTheme savedTheme prefersDark = (if prefersDark then "dark" else "light") ∧
    ∀ s, s ≠ "" → initTheme (some s) prefersDark = s := by
  constructor
  · rcases h with rfl | rfl <;> simp [initTheme]
  · intro s hs
    simp [initTheme, hs]

/-- Witness for `init_fallthrough`: an empty persisted string falls
through to a true prefers-dark signal, while the malformed non-empty
string `"oops"` is returned verbatim. -/
theorem init_fallthrough_witness :
    initTheme (some ("")) true = "dark" ∧
    initTheme (some ("oops")) true = "oops" := by
  have h := init_fallthrough true (some ("")) (Or.inr rfl)
  exact ⟨by simpa using h.1, h.2 "oops" (by decide)⟩

/-- C3: a storage notification for the fixed key with new value
`"dark"` (resp. `"light"`) sets the local Theme to that value regardless
of the prior value; a notification with a different key, with a new
value outside `{light, dark}`, or with a null new value leaves the local
Theme unchanged. -/
theorem storage_notification (key newValue : Option String) (t : String) :
    handleStorageChange (some THEME_KEY) (some ("dark")) t = "dark" ∧
    handleStorageChange (some THEME_KEY) (some ("light")) t = "light" ∧
    (key ≠ some THEME_KEY → handleStorageChange key newValue t = t) ∧
    (∀ v, v ≠ "light" → v ≠ "dark" → handleStorageChange key (some v) t = t) ∧
    handleStorageChange key none t = t := by
  refine ⟨by simp [handleStorageChange], by simp [handleStorageChange], ?_, ?_, ?_⟩
  · intro hk
    rcases key with _ | k
    · simp [handleStorageChange]
    rcases newValue with _ | v
    · simp [handleStorageChange]
    have hk' : k ≠ THEME_KEY := by
      intro h
      exact hk (by simp [h])
    simp [handleStorageChange, hk']
  · intro v hv1 hv2
    rcases key with _ | k
    · simp [handleStorageChange]
    simp [handleStorageChange, hv1, hv2]
  · rcases key with _ | k <;> simp [handleStorageChange]

/-- Witness for `storage_notification`: a foreign key leaves the theme
unchanged, and so does a malformed value under the right key. -/
theorem storage_notification_witness :
    handleStorageChange (some ("other")) (some ("dark")) "light" = "light" ∧
    handleStorageChange (some ("theme")) (some ("purple")) "light" = "light" :=
  ⟨(storage_notification (some ("other")) (some ("dark")) "light").2.2.1 (by decide),
   (storage_notification (some ("theme")) (some ("purple")) "light").2.2.2.1
     "purple" (by decide) (by decide)⟩

/-- C4: after the synchronizer effect runs for a theme in
`{light, dark}`, the store's value under the fixed key equals the theme,
the theme's marker class is on the root element, and the other marker
class is absent — i.e. exactly one of the two markers is present,
matching the current Theme (the effect removes both markers, then adds
the current one, then writes the store). -/
theorem theme_effect_sync (theme : String) (root : List String)
    (store : String → Option String)
    (h : theme = "light" ∨ theme = "dark") :
    (applyThemeEffect theme root store).2 THEME_KEY = some theme ∧
    theme ∈ (applyThemeEffect theme root store).1 ∧
    ∀ m, (m = "light" ∨ m = "dark") → m ≠ theme →
      m ∉ (applyThemeEffect theme root store).1 := by
  refine ⟨by simp [applyThemeEffect, setItem], ?_, ?_⟩
  · simp only [applyThemeEffect, classListAdd]
    split
    · assumption
    · simp
  · intro m hm hne
    simp only [applyThemeEffect, classListAdd, classListRemove]
    intro hmem
    have hfilter :
        m ∉ root.filter (fun c => !decide (c ∈ (["light", "dark"] : List String))) := by
      intro hf
      have := List.of_mem_filter hf
      simp at this
      rcases hm with h1 | h1 <;> simp [h1] at this
    split at hmem
    · exact hfilter hmem
    · rcases List.mem_append.mp hmem with h2 | h2
      · exact hfilter h2
      · simp at h2
        exact hne h2

/-- Witness for `theme_effect_sync`: switching to `dark` on a root that
carried the `light` marker writes `"dark"` to the store, puts the `dark`
marker on the root, and removes the `light` marker. -/
theorem theme_effect_sync_witness :
    (applyThemeEffect "dark" ["light", "app"] (fun _ => none)).2 THEME_KEY
      = some ("dark") ∧
    "dark" ∈ (applyThemeEffect "dark" ["light", "app"] (fun _ => none)).1 ∧
    "light" ∉ (applyThemeEffect "dark" ["light", "app"] (fun _ => none)).1 := by
  have h := theme_effect_sync "dark" ["light", "app"] (fun _ => none) (Or.inr rfl)
  exact ⟨h.1, h.2.1, h.2.2 "light" (Or.inl rfl) (by decide)⟩

/-- C5: on `{light, dark}` the toggle is an involution, with a single
toggle mapping light to dark and dark to light. -/
theorem toggle_involution (t : String) (h : t = "light" ∨ t = "dark") :
    toggleTheme (toggleTheme t) = t ∧
    toggleTheme ("light") = "dark" ∧ toggleTheme ("dark") = "light" := by
  rcases h with h | h <;> subst h <;> exact ⟨rfl, rfl, rfl⟩

/-- Witness for `toggle_involution` at the concrete theme `light`. -/
theorem toggle_involution_witness :
    toggleTheme (toggleTheme ("light")) = "light" :=
  (toggle_involution "light" (Or.inl rfl)).1

/-- C6 counterexample: the initial in-memory Theme can leave
`{light, dark}`.  With persisted value `"sepia"` the resolver returns
`"sepia"`, which is neither `light` nor `dark`. -/
theorem claim6_cex :
    initTheme (some ("sepia")) false = "sepia" ∧
    ("sepia" : String) ≠ "light" ∧ ("sepia" : String) ≠ "dark" :=
  ⟨rfl, by decide, by decide⟩

/-- C6 (amended): the Theme produced by a toggle is always in
`{light, dark}` (from any prior value); a cross-context notification
keeps the Theme in `{light, dark}` when it already was; and the initial
resolved value is in `{light, dark}` whenever the persisted string is
absent, empty, or itself in `{light, dark}` — but an arbitrary non-empty
persisted string outside the set becomes the initial in-memory value
verbatim. -/
theorem theme_membership (s t : String) (key newValue : Option String)
    (saved : Option String) (prefersDark : Bool)
    (ht : t = "light" ∨ t = "dark")
    (hsaved : saved = none ∨ saved = some ("") ∨
      saved = some ("light") ∨ saved = some ("dark")) :
    (toggleTheme s = "light" ∨ toggleTheme s = "dark") ∧
    (handleStorageChange key newValue t = "light" ∨
      handleStorageChange key newValue t = "dark") ∧
    (initTheme saved prefersDark = "light" ∨
      initTheme saved prefersDark = "dark") := by
  refine ⟨?_, ?_, ?_⟩
  · unfold toggleTheme
    split <;> simp
  · rcases key with _ | k
    · simpa [handleStorageChange] using ht
    rcases newValue with _ | v
    · simpa [handleStorageChange] using ht
    by_cases hk : k = THEME_KEY ∧ (v = "light" ∨ v = "dark")
    · rcases hk.2 with h | h <;> subst h <;> simp [handleStorageChange, hk]
    · simpa [handleStorageChange, hk] using ht
  · rcases hsaved with rfl | rfl | rfl | rfl <;>
      cases prefersDark <;> simp [initTheme]

/-- Witness for `theme_membership`: toggling from the invalid value
`"mauve"` lands in the valid set, an accepted dark notification stays in
the set, and an empty persisted string resolves inside the set. -/
theorem theme_membership_witness :
    (toggleTheme ("mauve") = "light" ∨ toggleTheme ("mauve") = "dark") ∧
    (handleStorageChange (some ("theme")) (some ("dark")) "light" = "light" ∨
      handleStorageChange (some ("theme")) (some ("dark")) "light" = "dark") ∧
    (initTheme (some ("")) true = "light" ∨ initTheme (some ("")) true = "dark") :=
  theme_membership "mauve" "light" (some ("theme")) (some ("dark")) (some (""))
    true (Or.inl rfl) (Or.inr (Or.inl rfl))

/-- C7: with no persisted value, the initial Theme is `dark` when the
prefers-dark signal is true and `light` when it is false. -/
theorem init_no_saved :
    initTheme none true = "dark" ∧ initTheme none false = "light" :=
  ⟨rfl, rfl⟩

/-- C8: across two renders of the provider, the toggle function keeps
one identity (its `useCallback` dependency list is empty); the context
value keeps its identity when the theme is unchanged (reference-stable)
and is freshly recomputed exactly when the theme changed. -/
theorem context_value_stability (theme theme' : String) (f1 f2 f3 f4 : Nat) :
    ((renderProvider theme' (renderProvider theme ⟨none, none⟩ f1 f2).2 f3 f4).1.1
        = (renderProvider theme ⟨none, none⟩ f1 f2).1.1) ∧
    (theme' = theme →
      (renderProvider theme' (renderProvider theme ⟨none, none⟩ f1 f2).2 f3 f4).1
        = (renderProvider theme ⟨none, none⟩ f1 f2).1) ∧
    (theme' ≠ theme →
      (renderProvider theme' (renderProvider theme ⟨none, none⟩ f1 f2).2 f3 f4).1.2
        = f4) := by
  refine ⟨?_, ?_, ?_⟩ <;> simp [renderProvider, useMemoRef]
  · intro h
    simp [h]
  · intro h
    simp [Ne.symm h]

/-- Witness for `context_value_stability`: re-rendering with the same
theme returns the identical pair of references, and re-rendering with a
different theme allocates the context value afresh. -/
theorem context_value_stability_witness :
    ((renderProvider "light" (renderProvider "light" ⟨none, none⟩ 0 1).2 2 3).1
        = (renderProvider "light" ⟨none, none⟩ 0 1).1) ∧
    (renderProvider "dark" (renderProvider "light" ⟨none, none⟩ 0 1).2 2 3).1.2 = 3 :=
  ⟨(context_value_stability "light" "light" 0 1 2 3).2.1 rfl,
   (context_value_stability "light" "dark" 0 1 2 3).2.2 (by decide)⟩

/-- C9: in the exposed context value, `isDark` holds exactly when the
theme is `dark`, the `theme` field is the current theme, the
`toggleTheme` field is the toggle capability, and the surface consists
of exactly those three fields. -/
theorem context_surface (t : String) :
    ((contextValue t).isDark = true ↔ t = "dark") ∧
    (contextValue t).theme = t ∧
    (contextValue t).toggleTheme = toggleTheme ∧
    ∀ v : ThemeContextType, v = ⟨v.theme, v.isDark, v.toggleTheme⟩ := by
  exact ⟨by simp [contextValue], rfl, rfl, fun v => rfl⟩

/-- C10: only an absent or empty persisted string is treated as "no
preference" (both resolve through the media-query fallback, identically)
— every non-empty persisted string, valid or not, is returned verbatim
as the initial Theme. -/
theorem init_nonempty_returned (s : String) (prefersDark : Bool) (hs : s ≠ "") :
    initTheme (some s) prefersDark = s ∧
    initTheme (some ("")) prefersDark = initTheme none prefersDark ∧
    (initTheme none prefersDark = "light" ∨ initTheme none prefersDark = "dark") := by
  refine ⟨by simp [initTheme, hs], by simp [initTheme], ?_⟩
  cases prefersDark <;> simp [initTheme]

/-- Witness for `init_nonempty_returned` at the non-empty persisted
string `"caramel"`. -/
theorem init_nonempty_returned_witness :
    initTheme (some ("caramel")) false = "caramel" :=
  (init_nonempty_returned "caramel" false (by decide)).1
